import Mathlib

set_option maxRecDepth 100000
set_option maxHeartbeats 2000000

/-!
Verification of the `fast-starter` API generator
(`src/fast_starter/generators/file_generators/api_generator.py`).

The generator is a pure template composer: from a configuration record it
produces a list of `(path, content)` pairs.  The Python method
`APIGenerator.generate` calls `self.write_file(path, content)` once per file;
we embed it as a function returning the list of written files, in write order.

All template text below is transcribed byte-for-byte from the Python source
(`str.format` / f-string substitution is embedded as concatenation of the
literal segments around each substitution slot).
-/

/-- Modelled from the spec: `project_type: enum{GENERIC, ML_API, MICROSERVICE}`.
The enum itself lives in `fast_starter/core/config.py`, which is not part of
the migrated sources; the generator only dispatches on `ML_API` and
`MICROSERVICE` with a default branch.  `OUT_OF_DOMAIN` stands for a value
outside the declared enum domain: the Python dispatch
(`if ... == ProjectType.ML_API: ... elif ... == ProjectType.MICROSERVICE: ...`)
sends any such value to the same default (empty) branch as `GENERIC`. -/
inductive ProjectType where
  | GENERIC
  | ML_API
  | MICROSERVICE
  | OUT_OF_DOMAIN
deriving DecidableEq

/-- Modelled from the spec: `auth_type: enum{NONE, <non-none variants>}`.
The enum lives in `fast_starter/core/config.py` (not in the migrated sources);
the generator only ever compares against `AuthType.NONE`.  `JWT` and `OAUTH`
stand for two of the unnamed non-`NONE` variants.  `OUT_OF_DOMAIN` stands for a
value outside the declared enum domain: the only test the code performs,
`auth_type != AuthType.NONE`, is true for it. -/
inductive AuthType where
  | NONE
  | JWT
  | OAUTH
  | OUT_OF_DOMAIN
deriving DecidableEq

/-- Modelled from the spec: the immutable `GenerationConfiguration` record
(`project_name`, `output_root` (the code reads it as `config.path`),
`project_type`, `auth_type`, `is_async`).  The config class itself is outside
the migrated sources; these are exactly the fields `api_generator.py` reads. -/
structure GenerationConfig where
  name : String
  path : String
  project_type : ProjectType
  auth_type : AuthType
  is_async : Bool
deriving DecidableEq

/-- One generated file: relative path plus content, as handed to `write_file`. -/
structure GeneratedFile where
  path : String
  content : String
deriving DecidableEq

/-- The comparison `auth_type != AuthType.NONE` used throughout the source. -/
def hasAuth : AuthType → Bool
  | AuthType.NONE => false
  | _ => true

/-- Python renders a `bool` substituted into `str.format` as `True`/`False`;
this models that rendering for the `has_auth` slot. -/
def pyBool (b : Bool) : String :=
  if b then "True" else "False"

/-! Literal template segments, extracted byte-for-byte from the Python source.
`epA … epG` are the pieces of the main-endpoints template around its
substitution slots (in slot order: `auth_imports`, `database_imports`,
`auth_endpoints_include`, `project_name`, `project_name`,
`project_specific_endpoints`). -/

def epA : String := "\"\"\"\nMain API Endpoints\n\"\"\"\n\nfrom fastapi import APIRouter, Depends, HTTPException, status\n"

def epB : String := "\n"

def epC : String := "\n\nrouter = APIRouter()\n\n"

def epD : String := "\n\n@router.get(\"/\")\nasync def root():\n    \"\"\"Root endpoint\"\"\"\n    return \x7b\"message\": \"Welcome to "

def epE : String := " API\", \"version\": \"1.0.0\"\x7d\n\n\n@router.get(\"/health\")\nasync def health_check():\n    \"\"\"Health check endpoint\"\"\"\n    return \x7b\"status\": \"healthy\", \"service\": \""

def epF : String := "\"\x7d\n\n"

def epG : String := "\n"

/-! Pieces of the ML-endpoints template around its two `has_auth` slots. -/

def mlA : String := "\n@router.post(\"/predict\")\nasync def predict(\n    input_data: dict,\n    current_user: User = Depends(get_current_user) if "

def mlB : String := " else None\n):\n    \"\"\"Make ML prediction\"\"\"\n    from app.services.prediction_service import make_prediction\n    try:\n        result = await make_prediction(input_data)\n        return \x7b\"prediction\": result, \"status\": \"success\"\x7d\n    except Exception as e:\n        raise HTTPException(status_code=400, detail=str(e))\n\n\n@router.get(\"/model/info\")\nasync def get_model_info(\n    current_user: User = Depends(get_current_user) if "

def mlC : String := " else None\n):\n    \"\"\"Get ML model information\"\"\"\n    return \x7b\n        \"model_name\": \"DefaultModel\",\n        \"version\": \"1.0.0\",\n        \"description\": \"Machine Learning model for predictions\"\n    \x7d\n"

/-! Pieces of the microservice-endpoints template around its `project_name`
and `has_auth` slots. -/

def msA : String := "\n@router.get(\"/status\")\nasync def service_status():\n    \"\"\"Get service status\"\"\"\n    return \x7b\n        \"service\": \""

def msB : String := "\",\n        \"status\": \"running\",\n        \"version\": \"1.0.0\"\n    \x7d\n\n\n@router.post(\"/process\")\nasync def process_data(\n    data: dict,\n    current_user: User = Depends(get_current_user) if "

def msC : String := " else None\n):\n    \"\"\"Process data\"\"\"\n    from app.services.processing_service import process_data\n    try:\n        result = await process_data(data)\n        return \x7b\"result\": result, \"status\": \"processed\"\x7d\n    except Exception as e:\n        raise HTTPException(status_code=400, detail=str(e))\n"

/-! Pieces of the authentication-endpoints f-string template around its slots
(in slot order: `session_import`, `session_type`, `await_keyword`,
`session_type`, `await_keyword`, `await_keyword`, `session_type`). -/

def auA : String := "\"\"\"\nAuthentication Endpoints\n\"\"\"\n\nfrom datetime import timedelta\nfrom fastapi import APIRouter, Depends, HTTPException, status\n"

def auB : String := "\nfrom app.core.config import settings\nfrom app.db.database import get_db\nfrom app.schemas.auth import Token, UserLogin, UserCreate, User as UserSchema\nfrom app.core.security import authenticate_user, create_access_token, get_current_user, create_user\n\nrouter = APIRouter()\n\n\n@router.post(\"/token\", response_model=Token)\nasync def login_for_access_token(\n    user_credentials: UserLogin,\n    db: "

def auC : String := " = Depends(get_db)\n):\n    \"\"\"Login endpoint to get access token\"\"\"\n    user = "

def auD : String := "authenticate_user(db, user_credentials.email, user_credentials.password)\n    if not user:\n        raise HTTPException(\n            status_code=status.HTTP_401_UNAUTHORIZED,\n            detail=\"Incorrect email or password\",\n            headers=\x7b\"WWW-Authenticate\": \"Bearer\"\x7d,\n        )\n    \n    access_token_expires = timedelta(minutes=settings.ACCESS_TOKEN_EXPIRE_MINUTES)\n    access_token = create_access_token(\n        data=\x7b\"sub\": user.email\x7d, expires_delta=access_token_expires\n    )\n    \n    return \x7b\"access_token\": access_token, \"token_type\": \"bearer\"\x7d\n\n\n@router.post(\"/register\", response_model=UserSchema, status_code=status.HTTP_201_CREATED)\nasync def register_user(\n    user_data: UserCreate,\n    db: "

def auE : String := " = Depends(get_db)\n):\n    \"\"\"Register new user\"\"\"\n    # Check if user already exists\n    from app.core.security import get_user_by_email\n    existing_user = "

def auF : String := "get_user_by_email(db, user_data.email)\n    if existing_user:\n        raise HTTPException(\n            status_code=status.HTTP_400_BAD_REQUEST,\n            detail=\"Email already registered\"\n        )\n    \n    # Create new user\n    user = "

def auG : String := "create_user(db, user_data.email, user_data.password)\n    return user\n\n\n@router.get(\"/me\", response_model=UserSchema)\nasync def read_users_me(current_user: UserSchema = Depends(get_current_user)):\n    \"\"\"Get current user information\"\"\"\n    return current_user\n\n\n@router.put(\"/me\", response_model=UserSchema)\nasync def update_user_me(\n    user_update: dict,\n    current_user: UserSchema = Depends(get_current_user),\n    db: "

def auH : String := " = Depends(get_db)\n):    \n    \"\"\"Update current user information\"\"\"\n    # Implementation for updating user profile\n    # This is a placeholder - implement based on your needs\n    return current_user\n"

/-- The `__init__.py` template emitted when `auth_type != NONE`. -/
def initAuthTemplate : String := "\"\"\"\nAPI v1 Router\n\"\"\"\n\nfrom fastapi import APIRouter\nfrom .endpoints import router as endpoints_router\nfrom .auth import router as auth_router\n\nrouter = APIRouter()\nrouter.include_router(endpoints_router)\nrouter.include_router(auth_router, prefix=\"/auth\", tags=[\"authentication\"])\n"

/-- The `__init__.py` template emitted when `auth_type == NONE`. -/
def initPlainTemplate : String := "\"\"\"\nAPI v1 Router\n\"\"\"\n\nfrom .endpoints import router\n"

namespace APIGenerator

/-- The `auth_imports` local of `_get_endpoints_template` (lines 61, 66-67):
empty unless `auth_type != NONE`. -/
def auth_imports (config : GenerationConfig) : String :=
  if hasAuth config.auth_type then "from app.core.security import get_current_user" else ""

/-- The `auth_endpoints_include` local of `_get_endpoints_template`
(lines 62, 68): it is assigned the empty string on every path. -/
def auth_endpoints_include : String := ""

/-- The `database_imports` local of `_get_endpoints_template` (lines 71-74). -/
def database_imports (is_async : Bool) : String :=
  if is_async then
    "from app.db.database import get_db\nfrom sqlalchemy.ext.asyncio import AsyncSession\nfrom app.models.auth import User"
  else
    "from app.db.database import get_db\nfrom sqlalchemy.orm import Session\nfrom app.models.auth import User"

/-- Modelled from the spec: `BaseGenerator.get_template_vars()["project_name"]`
is defined outside the migrated sources; per the spec, `project_name` is the
configured project name, "used for interpolation into banners/messages". -/
def get_template_vars_project_name (config : GenerationConfig) : String :=
  config.name

/-- `_get_ml_endpoints` (lines 90-119): the ML template with `has_auth`
substituted (twice) by Python's rendering of `auth_type != NONE`. -/
def get_ml_endpoints (config : GenerationConfig) : String :=
  mlA ++ pyBool (hasAuth config.auth_type) ++ mlB ++ pyBool (hasAuth config.auth_type) ++ mlC

/-- `_get_microservice_endpoints` (lines 121-149): the microservice template
with `project_name` (from `config.name`) and `has_auth` substituted. -/
def get_microservice_endpoints (config : GenerationConfig) : String :=
  msA ++ config.name ++ msB ++ pyBool (hasAuth config.auth_type) ++ msC

/-- The `project_specific_endpoints` local of `_get_endpoints_template`
(lines 64, 76-80): closed dispatch on `project_type`, defaulting to the
empty string. -/
def project_specific_endpoints (config : GenerationConfig) : String :=
  match config.project_type with
  | ProjectType.ML_API => get_ml_endpoints config
  | ProjectType.MICROSERVICE => get_microservice_endpoints config
  | _ => ""

/-- `_get_endpoints_template` (lines 32-88): the main endpoints template with
all five `format` slots substituted. -/
def get_endpoints_template (config : GenerationConfig) : String :=
  epA ++ auth_imports config ++ epB ++ database_imports config.is_async ++ epC
    ++ auth_endpoints_include ++ epD ++ get_template_vars_project_name config ++ epE
    ++ get_template_vars_project_name config ++ epF ++ project_specific_endpoints config ++ epG

/-- `_get_auth_endpoints_template` (lines 151-237): sync/async token selection
followed by the f-string template. -/
def get_auth_endpoints_template (config : GenerationConfig) : String :=
  let session_import :=
    if config.is_async then "from sqlalchemy.ext.asyncio import AsyncSession"
    else "from sqlalchemy.orm import Session"
  let session_type := if config.is_async then "AsyncSession" else "Session"
  let await_keyword := if config.is_async then "await " else ""
  auA ++ session_import ++ auB ++ session_type ++ auC ++ await_keyword ++ auD
    ++ session_type ++ auE ++ await_keyword ++ auF ++ await_keyword ++ auG
    ++ session_type ++ auH

/-- `_get_init_template` (lines 239-264). -/
def get_init_template (config : GenerationConfig) : String :=
  if hasAuth config.auth_type then initAuthTemplate else initPlainTemplate

/-- `generate` (lines 13-30): the files handed to `write_file`, in write
order.  The auth file is produced exactly when `auth_type != NONE`. -/
def generate (config : GenerationConfig) : List GeneratedFile :=
  [⟨config.path ++ "/app/api/v1/endpoints.py", get_endpoints_template config⟩]
    ++ (if hasAuth config.auth_type then
          [⟨config.path ++ "/app/api/v1/auth.py", get_auth_endpoints_template config⟩]
        else [])
    ++ [⟨config.path ++ "/app/api/v1/__init__.py", get_init_template config⟩]

end APIGenerator

/-! ### Token-occurrence machinery

`occurs p s` decides whether the character list `p` occurs contiguously
inside `s` (`p <:+: s`).  To reason about contents that contain the abstract
project name, a file's characters are presented as `render n segs`: the
concatenation of constant segments and copies of the name `n`.  `segClear`
is a decidable sufficient condition for a token not to occur in a rendered
file whenever it does not occur in the name itself: the token must not occur
in any constant segment, and no split of the token may straddle a boundary
next to a name slot. -/

def occurs (p : List Char) : List Char → Bool
  | [] => p.isEmpty
  | c :: rest => p.isPrefixOf (c :: rest) || occurs p rest

/-- String-level wrapper: does `tok` occur contiguously in `s`? -/
def containsTok (s tok : String) : Bool :=
  occurs tok.data s.data

def countOcc (p : List Char) : List Char → Nat
  | [] => 0
  | c :: rest =>
    if p.isPrefixOf (c :: rest) then countOcc p rest + 1 else countOcc p rest

/-- Number of (possibly overlapping) occurrence positions of `tok` in `s`. -/
def countTok (s tok : String) : Nat :=
  countOcc tok.data s.data

/-- Does any token of `toks` occur in `s`? -/
def setAppears (s : String) (toks : List String) : Bool :=
  toks.any fun t => containsTok s t

/-- The lexical tokens identifying the synchronous database-access idiom. -/
def syncIdiomTokens : List String :=
  ["from sqlalchemy.orm import Session"]

/-- The lexical tokens identifying the asynchronous database-access idiom:
the async session import/type and the awaited data-access calls. -/
def asyncIdiomTokens : List String :=
  ["AsyncSession", "await authenticate_user", "await get_user_by_email",
   "await create_user"]

/-- A file content as a sequence of constant segments and name slots. -/
inductive Seg where
  | const : String → Seg
  | hole : Seg
deriving DecidableEq

/-- Characters of a segment list with `n` substituted for every slot. -/
def render (n : String) : List Seg → List Char
  | [] => []
  | Seg.const c :: rest => c.data ++ render n rest
  | Seg.hole :: rest => n.data ++ render n rest

/-- No nonempty proper prefix of `p` is a suffix of `c` (so no occurrence of
`p` can start inside `c` and continue past its right end). -/
def noLeftEdge (p c : List Char) : Bool :=
  (List.range p.length).all fun i => decide (i = 0) || ! (p.take i).isSuffixOf c

/-- No nonempty proper suffix of `p` is a prefix of `d` (so no occurrence of
`p` can end inside `d` having started before its left end). -/
def noRightEdge (p d : List Char) : Bool :=
  (List.range p.length).all fun i => decide (i = 0) || ! (p.drop i).isPrefixOf d

/-- Decidable blocker: `p` occurs in no constant segment, cannot straddle out
of a constant segment, and after each slot the next constant segment is long
enough and rejects every proper suffix of `p` as a prefix. -/
def segClear (p : List Char) : List Seg → Bool
  | [] => true
  | Seg.const c :: rest => (! occurs p c.data) && noLeftEdge p c.data && segClear p rest
  | [Seg.hole] => true
  | [Seg.hole, Seg.const d] => noRightEdge p d.data && segClear p [Seg.const d]
  | Seg.hole :: Seg.const d :: rest =>
      decide (p.length ≤ d.data.length + 1) && noRightEdge p d.data
        && segClear p (Seg.const d :: rest)
  | Seg.hole :: Seg.hole :: _ => false

/-- Segment decomposition of the endpoints file produced by
`APIGenerator.get_endpoints_template`, parameterized by the outcome of the
two configuration tests `hasAuth auth_type` and `is_async`; the slots hold
the project name. -/
def segsEndpoints (ha asy : Bool) : ProjectType → List Seg
  | ProjectType.ML_API =>
      [Seg.const (epA ++ (if ha then "from app.core.security import get_current_user" else "")
        ++ epB ++ APIGenerator.database_imports asy ++ epC
        ++ APIGenerator.auth_endpoints_include ++ epD),
       Seg.hole, Seg.const epE, Seg.hole,
       Seg.const (epF ++ (mlA ++ pyBool ha ++ mlB ++ pyBool ha ++ mlC) ++ epG)]
  | ProjectType.MICROSERVICE =>
      [Seg.const (epA ++ (if ha then "from app.core.security import get_current_user" else "")
        ++ epB ++ APIGenerator.database_imports asy ++ epC
        ++ APIGenerator.auth_endpoints_include ++ epD),
       Seg.hole, Seg.const epE, Seg.hole,
       Seg.const (epF ++ msA), Seg.hole,
       Seg.const (msB ++ pyBool ha ++ msC ++ epG)]
  | _ =>
      [Seg.const (epA ++ (if ha then "from app.core.security import get_current_user" else "")
        ++ epB ++ APIGenerator.database_imports asy ++ epC
        ++ APIGenerator.auth_endpoints_include ++ epD),
       Seg.hole, Seg.const epE, Seg.hole,
       Seg.const (epF ++ epG)]

/-- Segment decomposition of the microservice fragment produced by
`APIGenerator.get_microservice_endpoints`. -/
def segsMicro (ha : Bool) : List Seg :=
  [Seg.const msA, Seg.hole, Seg.const (msB ++ pyBool ha ++ msC)]

/-- The auth-endpoints file content in synchronous mode (closed form). -/
def authTemplateSync : String :=
  auA ++ "from sqlalchemy.orm import Session" ++ auB ++ "Session" ++ auC ++ "" ++ auD
    ++ "Session" ++ auE ++ "" ++ auF ++ "" ++ auG ++ "Session" ++ auH

/-- The auth-endpoints file content in asynchronous mode (closed form). -/
def authTemplateAsync : String :=
  auA ++ "from sqlalchemy.ext.asyncio import AsyncSession" ++ auB ++ "AsyncSession"
    ++ auC ++ "await " ++ auD ++ "AsyncSession" ++ auE ++ "await " ++ auF ++ "await "
    ++ auG ++ "AsyncSession" ++ auH

/-- The ML fragment as a function of the `has_auth` flag (closed form). -/
def mlTemplate (ha : Bool) : String :=
  mlA ++ pyBool ha ++ mlB ++ pyBool ha ++ mlC

/-! ### Helper lemmas -/

theorem data_append (a b : String) : (a ++ b).data = a.data ++ b.data := rfl

theorem occurs_iff (p : List Char) : ∀ s : List Char, occurs p s = true ↔ p <:+: s := by
  intro s
  induction s with
  | nil => cases p <;> simp [occurs, List.infix_nil]
  | cons c rest ih =>
    simp [occurs, List.isPrefixOf_iff_prefix, List.infix_cons_iff, ih]

theorem occurs_eq_false (p s : List Char) : occurs p s = false ↔ ¬ p <:+: s := by
  rw [Bool.eq_false_iff]
  exact not_congr (occurs_iff p s)

theorem infix_append_cases {p A B : List Char} (h : p <:+: A ++ B) :
    p <:+: A ∨ p <:+: B ∨
      ∃ p1 p2, p = p1 ++ p2 ∧ p1 ≠ [] ∧ p2 ≠ [] ∧ p1 <:+ A ∧ p2 <+: B := by
  obtain ⟨s, t, hst⟩ := h
  rcases List.append_eq_append_iff.mp hst with ⟨a2, hA, _⟩ | ⟨c2, hsp, hB⟩
  · left; exact ⟨s, a2, hA.symm⟩
  · rcases List.append_eq_append_iff.mp hsp with ⟨a3, hA2, hp⟩ | ⟨s3, _, hc2⟩
    · rcases eq_or_ne a3 [] with rfl | hane
      · right; left
        have hp2 : p = c2 := by simpa using hp
        exact ⟨[], t, by simp [hp2, ← hB]⟩
      · rcases eq_or_ne c2 [] with rfl | hcne
        · left
          have hp2 : p = a3 := by simpa using hp
          exact ⟨s, [], by simp [hA2, hp2]⟩
        · right; right
          exact ⟨a3, c2, hp, hane, hcne, ⟨s, hA2.symm⟩, ⟨t, hB.symm⟩⟩
    · right; left
      exact ⟨s3, t, by rw [hB, hc2]⟩

theorem pre_of_append_split {p A B : List Char} (h : p <+: A ++ B)
    (hlen : p.length ≤ A.length) : p <+: A := by
  have h1 := List.prefix_iff_eq_take.mp h
  rw [List.take_append_eq_append_take, Nat.sub_eq_zero_of_le hlen, List.take_zero,
    List.append_nil] at h1
  rw [h1]
  exact List.take_prefix _ _

theorem noLeftEdge_sound {p c : List Char} (h : noLeftEdge p c = true)
    {i : Nat} (h0 : 0 < i) (hlt : i < p.length) : ¬ (p.take i <:+ c) := by
  intro hsuf
  have hx := List.all_eq_true.mp h i (List.mem_range.mpr hlt)
  simp only [Bool.or_eq_true, decide_eq_true_eq, Bool.not_eq_true'] at hx
  rcases hx with hx | hx
  · omega
  · exact absurd (hx ▸ List.isSuffixOf_iff_suffix.mpr hsuf) Bool.false_ne_true

theorem noRightEdge_sound {p d : List Char} (h : noRightEdge p d = true)
    {i : Nat} (h0 : 0 < i) (hlt : i < p.length) : ¬ (p.drop i <+: d) := by
  intro hpre
  have hx := List.all_eq_true.mp h i (List.mem_range.mpr hlt)
  simp only [Bool.or_eq_true, decide_eq_true_eq, Bool.not_eq_true'] at hx
  rcases hx with hx | hx
  · omega
  · exact absurd (hx ▸ List.isPrefixOf_iff_prefix.mpr hpre) Bool.false_ne_true

theorem segClear_sound {p : List Char} {n : String} (hp : p ≠ [])
    (hn : ¬ p <:+: n.data) :
    ∀ segs : List Seg, segClear p segs = true → ¬ p <:+: render n segs := by
  intro segs
  induction segs with
  | nil =>
    intro _ hinf
    simp only [render] at hinf
    exact hp (List.infix_nil.mp hinf)
  | cons s rest ih =>
    cases s with
    | const c =>
      intro h hinf
      simp only [segClear, Bool.and_eq_true] at h
      obtain ⟨⟨hocc, hleft⟩, hrest⟩ := h
      simp only [render] at hinf
      rcases infix_append_cases hinf with hA | hB | ⟨p1, p2, heq, h1, h2, hsuf, hpre⟩
      · exact (occurs_eq_false p c.data).mp (by simpa using hocc) hA
      · exact ih hrest hB
      · have hi1 : 0 < p1.length := List.length_pos.mpr h1
        have hlen : p.length = p1.length + p2.length := by
          rw [heq]; exact List.length_append p1 p2
        have h2pos : 0 < p2.length := List.length_pos.mpr h2
        have htake : p.take p1.length = p1 := by rw [heq]; exact List.take_left p1 p2
        exact noLeftEdge_sound hleft hi1 (by omega) (by rw [htake]; exact hsuf)
    | hole =>
      cases rest with
      | nil =>
        intro _ hinf
        simp only [render, List.append_nil] at hinf
        exact hn hinf
      | cons s2 rest2 =>
        cases s2 with
        | hole => intro h _; simp [segClear] at h
        | const d =>
          cases rest2 with
          | nil =>
            intro h hinf
            simp only [segClear, Bool.and_eq_true] at h
            obtain ⟨hright, ⟨hocc2, hleft2⟩, _⟩ := h
            have hrest : segClear p [Seg.const d] = true := by
              simp only [segClear, Bool.and_eq_true]
              exact ⟨⟨hocc2, hleft2⟩, trivial⟩
            simp only [render] at hinf
            rcases infix_append_cases hinf with hA | hB | ⟨p1, p2, heq, h1, h2, hsuf, hpre⟩
            · exact hn hA
            · exact ih hrest (by simp only [render]; exact hB)
            · have h1pos : 0 < p1.length := List.length_pos.mpr h1
              have h2pos : 0 < p2.length := List.length_pos.mpr h2
              have hplen : p.length = p1.length + p2.length := by
                rw [heq]; exact List.length_append p1 p2
              have hp2d : p2 <+: d.data := by
                simpa using hpre
              have hdrop : p.drop p1.length = p2 := by rw [heq]; exact List.drop_left p1 p2
              exact noRightEdge_sound hright h1pos (by omega) (by rw [hdrop]; exact hp2d)
          | cons s3 rest3 =>
            intro h hinf
            simp only [segClear, Bool.and_eq_true, decide_eq_true_eq] at h
            obtain ⟨⟨hlen, hright⟩, hall⟩ := h
            have hrest : segClear p (Seg.const d :: s3 :: rest3) = true := by
              simp only [segClear, Bool.and_eq_true]
              exact hall
            simp only [render] at hinf
            rcases infix_append_cases hinf with hA | hB | ⟨p1, p2, heq, h1, h2, hsuf, hpre⟩
            · exact hn hA
            · exact ih hrest (by simp only [render]; exact hB)
            · have h1pos : 0 < p1.length := List.length_pos.mpr h1
              have h2pos : 0 < p2.length := List.length_pos.mpr h2
              have hplen : p.length = p1.length + p2.length := by
                rw [heq]; exact List.length_append p1 p2
              have hp2d : p2 <+: d.data := pre_of_append_split hpre (by omega)
              have hdrop : p.drop p1.length = p2 := by rw [heq]; exact List.drop_left p1 p2
              exact noRightEdge_sound hright h1pos (by omega) (by rw [hdrop]; exact hp2d)

theorem occurs_render_false {p : List Char} {n : String} {segs : List Seg}
    (hp : p ≠ []) (hn : occurs p n.data = false) (hs : segClear p segs = true) :
    occurs p (render n segs) = false :=
  (occurs_eq_false p (render n segs)).mpr
    (segClear_sound hp ((occurs_eq_false p n.data).mp hn) segs hs)

theorem infix_of_infix_left {p A : List Char} (B : List Char) (h : p <:+: A) :
    p <:+: A ++ B := by
  obtain ⟨s, t, hst⟩ := h
  exact ⟨s, t ++ B, by rw [← hst]; simp⟩

theorem infix_of_infix_right {p B : List Char} (A : List Char) (h : p <:+: B) :
    p <:+: A ++ B := by
  obtain ⟨s, t, hst⟩ := h
  exact ⟨A ++ s, t, by rw [← hst]; simp⟩

theorem infix_render_const {p : List Char} (n : String) {c : String} :
    ∀ segs : List Seg, Seg.const c ∈ segs → p <:+: c.data → p <:+: render n segs := by
  intro segs
  induction segs with
  | nil => intro h _; exact absurd h (List.not_mem_nil _)
  | cons s rest ih =>
    intro hmem hp
    cases s with
    | const c2 =>
      rcases List.mem_cons.mp hmem with heq | hmem2
      · injection heq with h2
        subst h2
        simp only [render]
        exact infix_of_infix_left _ hp
      · simp only [render]
        exact infix_of_infix_right _ (ih hmem2 hp)
    | hole =>
      rcases List.mem_cons.mp hmem with heq | hmem2
      · exact absurd heq (by simp)
      · simp only [render]
        exact infix_of_infix_right _ (ih hmem2 hp)

theorem occurs_render_true {p : List Char} {n : String} {segs : List Seg} {c : String}
    (hc : Seg.const c ∈ segs) (h : occurs p c.data = true) :
    occurs p (render n segs) = true :=
  (occurs_iff p _).mpr (infix_render_const n segs hc ((occurs_iff p _).mp h))

/-! ### Bridging the generator functions to segment form -/

theorem endpoints_data (n pth : String) (pt : ProjectType) (at_ : AuthType) (asy : Bool) :
    (APIGenerator.get_endpoints_template ⟨n, pth, pt, at_, asy⟩).data
      = render n (segsEndpoints (hasAuth at_) asy pt) := by
  cases at_ <;> cases asy <;> cases pt <;>
    simp [APIGenerator.get_endpoints_template, APIGenerator.auth_imports,
      APIGenerator.auth_endpoints_include, APIGenerator.database_imports,
      APIGenerator.project_specific_endpoints, APIGenerator.get_ml_endpoints,
      APIGenerator.get_microservice_endpoints, APIGenerator.get_template_vars_project_name,
      segsEndpoints, render, hasAuth, pyBool, data_append, List.append_assoc]

theorem micro_data (n pth : String) (pt : ProjectType) (at_ : AuthType) (asy : Bool) :
    (APIGenerator.get_microservice_endpoints ⟨n, pth, pt, at_, asy⟩).data
      = render n (segsMicro (hasAuth at_)) := by
  cases at_ <;>
    simp [APIGenerator.get_microservice_endpoints, segsMicro, render, hasAuth, pyBool,
      data_append, List.append_assoc]

theorem ml_closed (n pth : String) (pt : ProjectType) (at_ : AuthType) (asy : Bool) :
    APIGenerator.get_ml_endpoints ⟨n, pth, pt, at_, asy⟩ = mlTemplate (hasAuth at_) := rfl

theorem auth_closed_sync (n pth : String) (pt : ProjectType) (at_ : AuthType) :
    APIGenerator.get_auth_endpoints_template ⟨n, pth, pt, at_, false⟩ = authTemplateSync := rfl

theorem auth_closed_async (n pth : String) (pt : ProjectType) (at_ : AuthType) :
    APIGenerator.get_auth_endpoints_template ⟨n, pth, pt, at_, true⟩ = authTemplateAsync := rfl

/-! ### Token-set lemmas and shared decidable facts -/

theorem setAppears_eq_false (s : String) : ∀ toks : List String,
    (∀ t ∈ toks, containsTok s t = false) → setAppears s toks = false := by
  intro toks
  induction toks with
  | nil => intro _; rfl
  | cons t ts ih =>
    intro h
    simp only [setAppears, List.any_cons, Bool.or_eq_false_iff]
    exact ⟨h t (List.mem_cons_self _ _),
           ih fun x hx => h x (List.mem_cons_of_mem _ hx)⟩

theorem setAppears_eq_true {s : String} {toks : List String} (t : String)
    (ht : t ∈ toks) (h : containsTok s t = true) : setAppears s toks = true := by
  simp only [setAppears, List.any_eq_true]
  exact ⟨t, ht, h⟩

theorem tok_mem_all {t : String} {asy : Bool}
    (ht : t ∈ (if asy then syncIdiomTokens else asyncIdiomTokens)) :
    t ∈ syncIdiomTokens ++ asyncIdiomTokens := by
  cases asy with
  | false => exact List.mem_append_right _ ht
  | true => exact List.mem_append_left _ ht

theorem tok_ne_nil : ∀ t ∈ syncIdiomTokens ++ asyncIdiomTokens, t.data ≠ [] := by
  decide

theorem segClear_sync_side : ∀ t ∈ asyncIdiomTokens, ∀ ha : Bool, ∀ pt : ProjectType,
    segClear t.data (segsEndpoints ha false pt) = true := by
  intro t ht ha pt
  fin_cases ht <;> cases ha <;> cases pt <;> decide

theorem segClear_async_side : ∀ t ∈ syncIdiomTokens, ∀ ha : Bool, ∀ pt : ProjectType,
    segClear t.data (segsEndpoints ha true pt) = true := by
  intro t ht ha pt
  fin_cases ht <;> cases ha <;> cases pt <;> decide

theorem segClear_auth_path : ∀ asy : Bool, ∀ pt : ProjectType,
    segClear "/auth".data (segsEndpoints false asy pt) = true := by
  intro asy pt
  cases asy <;> cases pt <;> decide

theorem authSync_no_async : ∀ t ∈ asyncIdiomTokens, containsTok authTemplateSync t = false := by
  decide

theorem authAsync_no_sync : ∀ t ∈ syncIdiomTokens, containsTok authTemplateAsync t = false := by
  decide

theorem init_no_idioms : ∀ t ∈ syncIdiomTokens ++ asyncIdiomTokens,
    containsTok initAuthTemplate t = false ∧ containsTok initPlainTemplate t = false := by
  decide

theorem initPlain_no_auth : containsTok initPlainTemplate "/auth" = false := by decide

theorem initPlain_no_inc : containsTok initPlainTemplate "include_router" = false := by decide

theorem initAuth_mount : containsTok initAuthTemplate
    "router.include_router(auth_router, prefix=\"/auth\", tags=[\"authentication\"])" = true := by
  decide

theorem initAuth_pre : containsTok initAuthTemplate "prefix=\"/auth\"" = true := by decide

theorem initAuth_tag : containsTok initAuthTemplate "tags=[\"authentication\"]" = true := by decide

theorem ep_user_import : ∀ ha asy : Bool, ∀ pt : ProjectType, ∀ n : String,
    occurs "from app.models.auth import User".data (render n (segsEndpoints ha asy pt)) = true := by
  intro ha asy pt n
  cases ha <;> cases asy <;> cases pt <;>
    exact occurs_render_true (List.mem_cons_self _ _) (by decide)

theorem epSync_has_sync : ∀ ha : Bool, ∀ pt : ProjectType, ∀ n : String,
    occurs "from sqlalchemy.orm import Session".data (render n (segsEndpoints ha false pt)) = true := by
  intro ha pt n
  cases ha <;> cases pt <;>
    exact occurs_render_true (List.mem_cons_self _ _) (by decide)

theorem epAsync_has_async : ∀ ha : Bool, ∀ pt : ProjectType, ∀ n : String,
    occurs "AsyncSession".data (render n (segsEndpoints ha true pt)) = true := by
  intro ha pt n
  cases ha <;> cases pt <;>
    exact occurs_render_true (List.mem_cons_self _ _) (by decide)

theorem mlT_facts : ∀ ha : Bool,
    containsTok (mlTemplate ha) "@router.post(\"/predict\")" = true
    ∧ containsTok (mlTemplate ha) "@router.get(\"/model/info\")" = true
    ∧ containsTok (mlTemplate ha) "@router.get(\"/status\")" = false
    ∧ containsTok (mlTemplate ha) "@router.post(\"/process\")" = false := by
  intro ha
  cases ha <;> exact ⟨by decide, by decide, by decide, by decide⟩

theorem msSegs_facts : ∀ ha : Bool,
    segClear "@router.post(\"/predict\")".data (segsMicro ha) = true
    ∧ segClear "@router.get(\"/model/info\")".data (segsMicro ha) = true := by
  intro ha
  cases ha <;> exact ⟨by decide, by decide⟩

theorem msR_facts : ∀ ha : Bool, ∀ n : String,
    occurs "@router.get(\"/status\")".data (render n (segsMicro ha)) = true
    ∧ occurs "@router.post(\"/process\")".data (render n (segsMicro ha)) = true := by
  intro ha n
  cases ha <;>
    exact ⟨occurs_render_true (List.mem_cons_self _ _) (by decide),
           occurs_render_true
             (List.mem_cons_of_mem _ (List.mem_cons_of_mem _ (List.mem_cons_self _ _)))
             (by decide)⟩

theorem auth_semantic_facts_sync :
    containsTok authTemplateSync "if existing_user:\n        raise HTTPException(\n            status_code=status.HTTP_400_BAD_REQUEST,\n            detail=\"Email already registered\"\n        )" = true
    ∧ containsTok authTemplateSync "create_user(db, user_data.email, user_data.password)\n    return user" = true
    ∧ containsTok authTemplateSync "authenticate_user(db, user_credentials.email, user_credentials.password)\n    if not user:\n        raise HTTPException(\n            status_code=status.HTTP_401_UNAUTHORIZED,\n            detail=\"Incorrect email or password\"," = true
    ∧ containsTok authTemplateSync "access_token = create_access_token(" = true
    ∧ containsTok authTemplateSync "return \x7b\"access_token\": access_token, \"token_type\": \"bearer\"\x7d" = true := by
  exact ⟨by decide, by decide, by decide, by decide, by decide⟩

theorem auth_semantic_facts_async :
    containsTok authTemplateAsync "if existing_user:\n        raise HTTPException(\n            status_code=status.HTTP_400_BAD_REQUEST,\n            detail=\"Email already registered\"\n        )" = true
    ∧ containsTok authTemplateAsync "create_user(db, user_data.email, user_data.password)\n    return user" = true
    ∧ containsTok authTemplateAsync "authenticate_user(db, user_credentials.email, user_credentials.password)\n    if not user:\n        raise HTTPException(\n            status_code=status.HTTP_401_UNAUTHORIZED,\n            detail=\"Incorrect email or password\"," = true
    ∧ containsTok authTemplateAsync "access_token = create_access_token(" = true
    ∧ containsTok authTemplateAsync "return \x7b\"access_token\": access_token, \"token_type\": \"bearer\"\x7d" = true := by
  exact ⟨by decide, by decide, by decide, by decide, by decide⟩

theorem authSync_scenario_facts :
    countTok authTemplateSync "@router." = 4
    ∧ containsTok authTemplateSync "@router.post(\"/token\"" = true
    ∧ containsTok authTemplateSync "@router.post(\"/register\"" = true
    ∧ containsTok authTemplateSync "@router.get(\"/me\"" = true
    ∧ containsTok authTemplateSync "@router.put(\"/me\"" = true
    ∧ containsTok authTemplateSync "from sqlalchemy.orm import Session" = true
    ∧ containsTok authTemplateSync "AsyncSession" = false
    ∧ containsTok authTemplateSync "await" = false := by
  exact ⟨by decide, by decide, by decide, by decide, by decide, by decide, by decide, by decide⟩

/-! ### Claims -/

/-- C1: `generate` is deterministic — two independent calls with the same
configuration produce the same list of generated files, byte-identical in
paths and contents.  In this embedding `generate` is a pure function of the
configuration record (the source computes every output byte from `config`
alone and reads no clock, randomness, or environment), so the two results
are equal. -/
theorem generate_deterministic (config : GenerationConfig) :
    APIGenerator.generate config = APIGenerator.generate config := rfl

/-- C2 counterexample: with `project_name = "/auth"` (and `auth_type = NONE`)
the generated endpoints file does contain the text `/auth` — it is
interpolated into the welcome banner — so the claim's conjunct that the text
`/auth` occurs nowhere in any generated file content is false as stated. -/
theorem auth_gating_counterexample :
    GeneratedFile.mk ("out" ++ "/app/api/v1/endpoints.py")
        (APIGenerator.get_endpoints_template
          (GenerationConfig.mk "/auth" "out" ProjectType.GENERIC AuthType.NONE false))
      ∈ APIGenerator.generate
          (GenerationConfig.mk "/auth" "out" ProjectType.GENERIC AuthType.NONE false)
    ∧ containsTok
        (APIGenerator.get_endpoints_template
          (GenerationConfig.mk "/auth" "out" ProjectType.GENERIC AuthType.NONE false))
        "/auth" = true := by
  exact ⟨List.mem_cons_self _ _, by decide⟩

/-- C2 (amended): if `auth_type = NONE` and the project name does not itself
contain the text `/auth`, then the output contains exactly the endpoints and
index files (no auth path), the index file is exactly the single-router
re-export (no `include_router` composition), and no generated file content
contains the text `/auth`. -/
theorem auth_gating_none (config : GenerationConfig)
    (h : config.auth_type = AuthType.NONE)
    (hname : containsTok config.name "/auth" = false) :
    (APIGenerator.generate config).map GeneratedFile.path
        = [config.path ++ "/app/api/v1/endpoints.py",
           config.path ++ "/app/api/v1/__init__.py"]
    ∧ APIGenerator.get_init_template config = initPlainTemplate
    ∧ containsTok (APIGenerator.get_init_template config) "include_router" = false
    ∧ ∀ f ∈ APIGenerator.generate config, containsTok f.content "/auth" = false := by
  obtain ⟨n, pth, pt, at_, asy⟩ := config
  cases at_ with
  | NONE =>
    refine ⟨by simp [APIGenerator.generate, hasAuth], rfl, initPlain_no_inc, ?_⟩
    intro f hf
    simp [APIGenerator.generate, hasAuth] at hf
    rcases hf with rfl | rfl
    · simp only [containsTok]
      rw [endpoints_data]
      exact occurs_render_false (by decide) hname (segClear_auth_path asy pt)
    · exact initPlain_no_auth
  | JWT => simp at h
  | OAUTH => simp at h
  | OUT_OF_DOMAIN => simp at h

/-- Witness for C2 (amended) at a concrete configuration. -/
theorem auth_gating_none_witness :
    (GenerationConfig.mk "demo" "out" ProjectType.ML_API AuthType.NONE true).auth_type
        = AuthType.NONE
    ∧ containsTok
        (GenerationConfig.mk "demo" "out" ProjectType.ML_API AuthType.NONE true).name
        "/auth" = false
    ∧ (APIGenerator.generate
        (GenerationConfig.mk "demo" "out" ProjectType.ML_API AuthType.NONE true)).map
        GeneratedFile.path
      = ["out" ++ "/app/api/v1/endpoints.py", "out" ++ "/app/api/v1/__init__.py"] :=
  ⟨rfl, by decide, (auth_gating_none _ rfl (by decide)).1⟩

/-- C3: when `auth_type ≠ NONE` the output includes the auth file path and
the index file mounts the auth router under the `/auth` prefix with the
`authentication` tag label. -/
theorem auth_gating_inverse (config : GenerationConfig)
    (h : config.auth_type ≠ AuthType.NONE) :
    (config.path ++ "/app/api/v1/auth.py") ∈
        (APIGenerator.generate config).map GeneratedFile.path
    ∧ containsTok (APIGenerator.get_init_template config)
        "router.include_router(auth_router, prefix=\"/auth\", tags=[\"authentication\"])" = true
    ∧ containsTok (APIGenerator.get_init_template config) "prefix=\"/auth\"" = true
    ∧ containsTok (APIGenerator.get_init_template config) "tags=[\"authentication\"]" = true := by
  obtain ⟨n, pth, pt, at_, asy⟩ := config
  cases at_ with
  | NONE => exact absurd rfl h
  | JWT =>
    exact ⟨by simp [APIGenerator.generate, hasAuth], initAuth_mount, initAuth_pre, initAuth_tag⟩
  | OAUTH =>
    exact ⟨by simp [APIGenerator.generate, hasAuth], initAuth_mount, initAuth_pre, initAuth_tag⟩
  | OUT_OF_DOMAIN =>
    exact ⟨by simp [APIGenerator.generate, hasAuth], initAuth_mount, initAuth_pre, initAuth_tag⟩

/-- Witness for C3 at a concrete configuration. -/
theorem auth_gating_inverse_witness :
    (GenerationConfig.mk "demo" "out" ProjectType.GENERIC AuthType.JWT false).auth_type
        ≠ AuthType.NONE
    ∧ ("out" ++ "/app/api/v1/auth.py") ∈
        (APIGenerator.generate
          (GenerationConfig.mk "demo" "out" ProjectType.GENERIC AuthType.JWT false)).map
          GeneratedFile.path :=
  ⟨by decide, (auth_gating_inverse _ (by decide)).1⟩

/-- C6 counterexample: with both enum fields outside their declared domains
the generator does not fail — no configuration-error path exists — and it
still hands the File Writer the complete three-file set: the out-of-domain
`auth_type` is treated like any non-`NONE` value and the out-of-domain
`project_type` silently contributes the empty project-specific fragment. -/
theorem config_error_counterexample :
    (APIGenerator.generate
        (GenerationConfig.mk "demo" "out" ProjectType.OUT_OF_DOMAIN
          AuthType.OUT_OF_DOMAIN false)).map GeneratedFile.path
      = ["out" ++ "/app/api/v1/endpoints.py", "out" ++ "/app/api/v1/auth.py",
         "out" ++ "/app/api/v1/__init__.py"]
    ∧ APIGenerator.project_specific_endpoints
        (GenerationConfig.mk "demo" "out" ProjectType.OUT_OF_DOMAIN
          AuthType.OUT_OF_DOMAIN false)
      = "" :=
  ⟨rfl, rfl⟩

/-- C6 (amended): `generate` performs no validation and never fails.  For
every configuration — including enum values outside the declared domains —
it produces the complete file set: endpoints and index always, plus the auth
file exactly when `auth_type != NONE`; an out-of-domain `project_type`
resolves to the empty project-specific fragment, and an out-of-domain
`auth_type` satisfies the code's only test (`!= NONE`), i.e. is treated as
auth-enabled, rather than raising a configuration error. -/
theorem generate_total :
    (∀ config : GenerationConfig,
        (APIGenerator.generate config).map GeneratedFile.path
          = if hasAuth config.auth_type then
              [config.path ++ "/app/api/v1/endpoints.py",
               config.path ++ "/app/api/v1/auth.py",
               config.path ++ "/app/api/v1/__init__.py"]
            else
              [config.path ++ "/app/api/v1/endpoints.py",
               config.path ++ "/app/api/v1/__init__.py"])
    ∧ (∀ (n pth : String) (at_ : AuthType) (asy : Bool),
        APIGenerator.project_specific_endpoints
          ⟨n, pth, ProjectType.OUT_OF_DOMAIN, at_, asy⟩ = "")
    ∧ hasAuth AuthType.OUT_OF_DOMAIN = true := by
  refine ⟨?_, ?_, rfl⟩
  · intro config
    obtain ⟨n, pth, pt, at_, asy⟩ := config
    cases at_ <;> simp [APIGenerator.generate, hasAuth]
  · intro n pth at_ asy
    rfl

/-- C7: for `project_type = MICROSERVICE`, any non-`NONE` `auth_type`, and
`is_async = false`, exactly three files are produced; the auth file has
exactly four endpoints (`/token` POST, `/register` POST, `/me` GET, `/me`
PUT), uses the sync idiom (`from sqlalchemy.orm import Session`) and
contains no async token (`AsyncSession`, `await`); and the index file mounts
the auth router under `/auth` with the authentication tag. -/
theorem microservice_sync_auth_scenario (config : GenerationConfig)
    (hpt : config.project_type = ProjectType.MICROSERVICE)
    (h : config.auth_type ≠ AuthType.NONE)
    (hasy : config.is_async = false) :
    (APIGenerator.generate config).length = 3
    ∧ GeneratedFile.mk (config.path ++ "/app/api/v1/auth.py")
        (APIGenerator.get_auth_endpoints_template config) ∈ APIGenerator.generate config
    ∧ countTok (APIGenerator.get_auth_endpoints_template config) "@router." = 4
    ∧ containsTok (APIGenerator.get_auth_endpoints_template config)
        "@router.post(\"/token\"" = true
    ∧ containsTok (APIGenerator.get_auth_endpoints_template config)
        "@router.post(\"/register\"" = true
    ∧ containsTok (APIGenerator.get_auth_endpoints_template config)
        "@router.get(\"/me\"" = true
    ∧ containsTok (APIGenerator.get_auth_endpoints_template config)
        "@router.put(\"/me\"" = true
    ∧ containsTok (APIGenerator.get_auth_endpoints_template config)
        "from sqlalchemy.orm import Session" = true
    ∧ containsTok (APIGenerator.get_auth_endpoints_template config) "AsyncSession" = false
    ∧ containsTok (APIGenerator.get_auth_endpoints_template config) "await" = false
    ∧ containsTok (APIGenerator.get_init_template config)
        "router.include_router(auth_router, prefix=\"/auth\", tags=[\"authentication\"])"
        = true := by
  obtain ⟨n, pth, pt, at_, asy⟩ := config
  have hpt2 : pt = ProjectType.MICROSERVICE := hpt
  have hasy2 : asy = false := hasy
  subst hpt2
  subst hasy2
  cases at_ <;>
    first
      | exact absurd rfl h
      | exact ⟨rfl, List.mem_cons_of_mem _ (List.mem_cons_self _ _),
          authSync_scenario_facts.1, authSync_scenario_facts.2.1,
          authSync_scenario_facts.2.2.1, authSync_scenario_facts.2.2.2.1,
          authSync_scenario_facts.2.2.2.2.1, authSync_scenario_facts.2.2.2.2.2.1,
          authSync_scenario_facts.2.2.2.2.2.2.1, authSync_scenario_facts.2.2.2.2.2.2.2,
          initAuth_mount⟩

/-- Witness for C7 at a concrete configuration. -/
theorem microservice_sync_auth_scenario_witness :
    (GenerationConfig.mk "demo" "out" ProjectType.MICROSERVICE AuthType.JWT false).project_type
        = ProjectType.MICROSERVICE
    ∧ (GenerationConfig.mk "demo" "out" ProjectType.MICROSERVICE AuthType.JWT false).auth_type
        ≠ AuthType.NONE
    ∧ (GenerationConfig.mk "demo" "out" ProjectType.MICROSERVICE AuthType.JWT false).is_async
        = false
    ∧ (APIGenerator.generate
        (GenerationConfig.mk "demo" "out" ProjectType.MICROSERVICE AuthType.JWT false)).length
        = 3 :=
  ⟨rfl, by decide, rfl, (microservice_sync_auth_scenario _ rfl (by decide) rfl).1⟩

/-- C8: whenever the auth file is generated, its registration endpoint checks
for an existing user and rejects with the duplicate-registration error
(HTTP 400, "Email already registered"), otherwise creates and returns the
new user; its login endpoint rejects invalid credentials with the
authentication error (HTTP 401, "Incorrect email or password") and otherwise
issues and returns an access token.  Per the spec these generated-code
behaviours are content, validated as verbatim template text. -/
theorem auth_endpoints_semantics (config : GenerationConfig)
    (h : config.auth_type ≠ AuthType.NONE) :
    GeneratedFile.mk (config.path ++ "/app/api/v1/auth.py")
        (APIGenerator.get_auth_endpoints_template config) ∈ APIGenerator.generate config
    ∧ containsTok (APIGenerator.get_auth_endpoints_template config)
        "if existing_user:\n        raise HTTPException(\n            status_code=status.HTTP_400_BAD_REQUEST,\n            detail=\"Email already registered\"\n        )" = true
    ∧ containsTok (APIGenerator.get_auth_endpoints_template config)
        "create_user(db, user_data.email, user_data.password)\n    return user" = true
    ∧ containsTok (APIGenerator.get_auth_endpoints_template config)
        "authenticate_user(db, user_credentials.email, user_credentials.password)\n    if not user:\n        raise HTTPException(\n            status_code=status.HTTP_401_UNAUTHORIZED,\n            detail=\"Incorrect email or password\"," = true
    ∧ containsTok (APIGenerator.get_auth_endpoints_template config)
        "access_token = create_access_token(" = true
    ∧ containsTok (APIGenerator.get_auth_endpoints_template config)
        "return \x7b\"access_token\": access_token, \"token_type\": \"bearer\"\x7d" = true := by
  obtain ⟨n, pth, pt, at_, asy⟩ := config
  cases at_ <;>
    first
      | exact absurd rfl h
      | cases asy with
        | false =>
          exact ⟨List.mem_cons_of_mem _ (List.mem_cons_self _ _),
            auth_semantic_facts_sync.1, auth_semantic_facts_sync.2.1,
            auth_semantic_facts_sync.2.2.1, auth_semantic_facts_sync.2.2.2.1,
            auth_semantic_facts_sync.2.2.2.2⟩
        | true =>
          exact ⟨List.mem_cons_of_mem _ (List.mem_cons_self _ _),
            auth_semantic_facts_async.1, auth_semantic_facts_async.2.1,
            auth_semantic_facts_async.2.2.1, auth_semantic_facts_async.2.2.2.1,
            auth_semantic_facts_async.2.2.2.2⟩

/-- Witness for C8 at a concrete configuration. -/
theorem auth_endpoints_semantics_witness :
    (GenerationConfig.mk "demo" "out" ProjectType.GENERIC AuthType.JWT false).auth_type
        ≠ AuthType.NONE
    ∧ containsTok
        (APIGenerator.get_auth_endpoints_template
          (GenerationConfig.mk "demo" "out" ProjectType.GENERIC AuthType.JWT false))
        "if existing_user:\n        raise HTTPException(\n            status_code=status.HTTP_400_BAD_REQUEST,\n            detail=\"Email already registered\"\n        )" = true :=
  ⟨by decide, (auth_endpoints_semantics _ (by decide)).2.1⟩

/-- C10: the auth file content depends only on `is_async` — any two
configurations that both enable auth and agree on `is_async` receive
byte-identical auth files, whatever their names, paths, project types, or
(non-`NONE`) auth variants. -/
theorem auth_file_only_depends_on_async (c1 c2 : GenerationConfig)
    (h1 : c1.auth_type ≠ AuthType.NONE) (h2 : c2.auth_type ≠ AuthType.NONE)
    (h : c1.is_async = c2.is_async) :
    APIGenerator.get_auth_endpoints_template c1 = APIGenerator.get_auth_endpoints_template c2
    ∧ GeneratedFile.mk (c1.path ++ "/app/api/v1/auth.py")
        (APIGenerator.get_auth_endpoints_template c1) ∈ APIGenerator.generate c1 := by
  obtain ⟨n1, p1, pt1, at1, asy1⟩ := c1
  obtain ⟨n2, p2, pt2, at2, asy2⟩ := c2
  have h3 : asy1 = asy2 := h
  subst h3
  constructor
  · cases asy1 <;> rfl
  · cases at1 <;>
      first
        | exact absurd rfl h1
        | exact List.mem_cons_of_mem _ (List.mem_cons_self _ _)

/-- Witness for C10 at two concrete configurations. -/
theorem auth_file_only_depends_on_async_witness :
    (GenerationConfig.mk "alpha" "o1" ProjectType.ML_API AuthType.JWT false).auth_type
        ≠ AuthType.NONE
    ∧ (GenerationConfig.mk "beta" "o2" ProjectType.MICROSERVICE AuthType.OAUTH false).auth_type
        ≠ AuthType.NONE
    ∧ APIGenerator.get_auth_endpoints_template
        (GenerationConfig.mk "alpha" "o1" ProjectType.ML_API AuthType.JWT false)
      = APIGenerator.get_auth_endpoints_template
          (GenerationConfig.mk "beta" "o2" ProjectType.MICROSERVICE AuthType.OAUTH false) :=
  ⟨by decide, by decide,
   (auth_file_only_depends_on_async _ _ (by decide) (by decide) rfl).1⟩

theorem authAsync_has_async : containsTok authTemplateAsync "AsyncSession" = true := by decide

theorem ms_no_ml_routes (n pth : String) (pt : ProjectType) (at_ : AuthType) (asy : Bool)
    (hn1 : containsTok n "@router.post(\"/predict\")" = false)
    (hn2 : containsTok n "@router.get(\"/model/info\")" = false) :
    containsTok (APIGenerator.get_microservice_endpoints ⟨n, pth, pt, at_, asy⟩)
        "@router.post(\"/predict\")" = false
    ∧ containsTok (APIGenerator.get_microservice_endpoints ⟨n, pth, pt, at_, asy⟩)
        "@router.get(\"/model/info\")" = false := by
  constructor <;> (simp only [containsTok]; rw [micro_data])
  · exact occurs_render_false (by decide) hn1 (msSegs_facts (hasAuth at_)).1
  · exact occurs_render_false (by decide) hn2 (msSegs_facts (hasAuth at_)).2

theorem ms_has_routes (n pth : String) (pt : ProjectType) (at_ : AuthType) (asy : Bool) :
    containsTok (APIGenerator.get_microservice_endpoints ⟨n, pth, pt, at_, asy⟩)
        "@router.get(\"/status\")" = true
    ∧ containsTok (APIGenerator.get_microservice_endpoints ⟨n, pth, pt, at_, asy⟩)
        "@router.post(\"/process\")" = true := by
  constructor <;> (simp only [containsTok]; rw [micro_data])
  · exact (msR_facts _ n).1
  · exact (msR_facts _ n).2

/-- C4 counterexample: for the configuration (GENERIC, NONE, sync) the
generated `__init__.py` file contains no token of either database idiom set,
so "exactly one of the two idiom sets appears in that file's content" fails
for this generated file. -/
theorem sync_async_counterexample :
    GeneratedFile.mk ("out" ++ "/app/api/v1/__init__.py")
        (APIGenerator.get_init_template
          (GenerationConfig.mk "demo" "out" ProjectType.GENERIC AuthType.NONE false))
      ∈ APIGenerator.generate
          (GenerationConfig.mk "demo" "out" ProjectType.GENERIC AuthType.NONE false)
    ∧ setAppears
        (APIGenerator.get_init_template
          (GenerationConfig.mk "demo" "out" ProjectType.GENERIC AuthType.NONE false))
        syncIdiomTokens = false
    ∧ setAppears
        (APIGenerator.get_init_template
          (GenerationConfig.mk "demo" "out" ProjectType.GENERIC AuthType.NONE false))
        asyncIdiomTokens = false :=
  ⟨List.mem_cons_of_mem _ (List.mem_cons_self _ _), by decide, by decide⟩

/-- C4 (amended): for every configuration whose project name contains no
database-idiom token, the idiom set opposite to `is_async` appears in no
generated file; the endpoints file and the auth file (always generated in
the matching flavour) contain the idiom set selected by `is_async`; and the
index file contains no token of either set. -/
theorem sync_async_exclusive (config : GenerationConfig)
    (hname : ∀ t ∈ syncIdiomTokens ++ asyncIdiomTokens,
      containsTok config.name t = false) :
    (∀ f ∈ APIGenerator.generate config,
        setAppears f.content
          (if config.is_async then syncIdiomTokens else asyncIdiomTokens) = false)
    ∧ setAppears (APIGenerator.get_endpoints_template config)
        (if config.is_async then asyncIdiomTokens else syncIdiomTokens) = true
    ∧ setAppears (APIGenerator.get_auth_endpoints_template config)
        (if config.is_async then asyncIdiomTokens else syncIdiomTokens) = true
    ∧ setAppears (APIGenerator.get_init_template config) syncIdiomTokens = false
    ∧ setAppears (APIGenerator.get_init_template config) asyncIdiomTokens = false := by
  obtain ⟨n, pth, pt, at_, asy⟩ := config
  refine ⟨?_, ?_, ?_, ?_, ?_⟩
  · intro f hf
    cases asy with
    | false =>
      cases at_ <;> simp [APIGenerator.generate, hasAuth] at hf <;>
        (first
          | (rcases hf with rfl | rfl | rfl)
          | (rcases hf with rfl | rfl)) <;>
        (refine setAppears_eq_false _ _ ?_
         intro t ht
         have ht2 : t ∈ asyncIdiomTokens := ht
         have hmemall : t ∈ syncIdiomTokens ++ asyncIdiomTokens :=
           List.mem_append_right _ ht2
         have hn := hname t hmemall
         first
           | (simp only [containsTok]
              rw [endpoints_data]
              exact occurs_render_false (tok_ne_nil t hmemall) hn
                (segClear_sync_side t ht2 _ _))
           | exact authSync_no_async t ht2
           | exact (init_no_idioms t hmemall).1
           | exact (init_no_idioms t hmemall).2)
    | true =>
      cases at_ <;> simp [APIGenerator.generate, hasAuth] at hf <;>
        (first
          | (rcases hf with rfl | rfl | rfl)
          | (rcases hf with rfl | rfl)) <;>
        (refine setAppears_eq_false _ _ ?_
         intro t ht
         have ht2 : t ∈ syncIdiomTokens := ht
         have hmemall : t ∈ syncIdiomTokens ++ asyncIdiomTokens :=
           List.mem_append_left _ ht2
         have hn := hname t hmemall
         first
           | (simp only [containsTok]
              rw [endpoints_data]
              exact occurs_render_false (tok_ne_nil t hmemall) hn
                (segClear_async_side t ht2 _ _))
           | exact authAsync_no_sync t ht2
           | exact (init_no_idioms t hmemall).1
           | exact (init_no_idioms t hmemall).2)
  · cases asy with
    | false =>
      refine setAppears_eq_true "from sqlalchemy.orm import Session"
        (List.mem_cons_self _ _) ?_
      simp only [containsTok]
      rw [endpoints_data]
      exact epSync_has_sync _ pt n
    | true =>
      refine setAppears_eq_true "AsyncSession" (List.mem_cons_self _ _) ?_
      simp only [containsTok]
      rw [endpoints_data]
      exact epAsync_has_async _ pt n
  · cases asy with
    | false =>
      refine setAppears_eq_true "from sqlalchemy.orm import Session"
        (List.mem_cons_self _ _) ?_
      exact authSync_scenario_facts.2.2.2.2.2.1
    | true =>
      refine setAppears_eq_true "AsyncSession" (List.mem_cons_self _ _) ?_
      exact authAsync_has_async
  · refine setAppears_eq_false _ _ ?_
    intro t ht
    have h2 := init_no_idioms t (List.mem_append_left _ ht)
    cases at_ <;> first | exact h2.2 | exact h2.1
  · refine setAppears_eq_false _ _ ?_
    intro t ht
    have h2 := init_no_idioms t (List.mem_append_right _ ht)
    cases at_ <;> first | exact h2.2 | exact h2.1

/-- Witness for C4 (amended) at a concrete configuration. -/
theorem sync_async_exclusive_witness :
    (∀ t ∈ syncIdiomTokens ++ asyncIdiomTokens,
        containsTok
          (GenerationConfig.mk "demo" "out" ProjectType.GENERIC AuthType.JWT false).name t
          = false)
    ∧ setAppears
        (APIGenerator.get_endpoints_template
          (GenerationConfig.mk "demo" "out" ProjectType.GENERIC AuthType.JWT false))
        (if (GenerationConfig.mk "demo" "out" ProjectType.GENERIC AuthType.JWT false).is_async
          then asyncIdiomTokens else syncIdiomTokens) = true :=
  ⟨by decide, (sync_async_exclusive _ (by decide)).2.1⟩

/-- C5 counterexample: the dispatch is closed, but the microservice fragment
interpolates the project name; with `project_name` equal to the prediction
decorator text, the MICROSERVICE fragment does contain a prediction-endpoint
token, falsifying "MICROSERVICE yields ... no prediction/model-info pair" as
stated for all configurations. -/
theorem project_dispatch_counterexample :
    containsTok
      (APIGenerator.project_specific_endpoints
        (GenerationConfig.mk "@router.post(\"/predict\")" "out" ProjectType.MICROSERVICE
          AuthType.NONE false))
      "@router.post(\"/predict\")" = true := by
  decide

/-- C5 (amended): for every configuration whose project name contains neither
ML route decorator, the project-specific fragment is a closed dispatch on
`project_type`: `ML_API` yields the prediction and model-info endpoints and
no status/process endpoint; `MICROSERVICE` yields the status and process
endpoints and no prediction/model-info endpoint; every other value
(including out-of-domain ones) yields the empty fragment, without error. -/
theorem project_dispatch (config : GenerationConfig)
    (hn1 : containsTok config.name "@router.post(\"/predict\")" = false)
    (hn2 : containsTok config.name "@router.get(\"/model/info\")" = false) :
    (config.project_type = ProjectType.ML_API →
        containsTok (APIGenerator.project_specific_endpoints config)
            "@router.post(\"/predict\")" = true
        ∧ containsTok (APIGenerator.project_specific_endpoints config)
            "@router.get(\"/model/info\")" = true
        ∧ containsTok (APIGenerator.project_specific_endpoints config)
            "@router.get(\"/status\")" = false
        ∧ containsTok (APIGenerator.project_specific_endpoints config)
            "@router.post(\"/process\")" = false)
    ∧ (config.project_type = ProjectType.MICROSERVICE →
        containsTok (APIGenerator.project_specific_endpoints config)
            "@router.get(\"/status\")" = true
        ∧ containsTok (APIGenerator.project_specific_endpoints config)
            "@router.post(\"/process\")" = true
        ∧ containsTok (APIGenerator.project_specific_endpoints config)
            "@router.post(\"/predict\")" = false
        ∧ containsTok (APIGenerator.project_specific_endpoints config)
            "@router.get(\"/model/info\")" = false)
    ∧ (config.project_type ≠ ProjectType.ML_API →
        config.project_type ≠ ProjectType.MICROSERVICE →
        APIGenerator.project_specific_endpoints config = "") := by
  obtain ⟨n, pth, pt, at_, asy⟩ := config
  refine ⟨?_, ?_, ?_⟩
  · intro hpt
    have hpt2 : pt = ProjectType.ML_API := hpt
    subst hpt2
    exact ⟨(mlT_facts (hasAuth at_)).1, (mlT_facts (hasAuth at_)).2.1,
           (mlT_facts (hasAuth at_)).2.2.1, (mlT_facts (hasAuth at_)).2.2.2⟩
  · intro hpt
    have hpt2 : pt = ProjectType.MICROSERVICE := hpt
    subst hpt2
    exact ⟨(ms_has_routes n pth ProjectType.MICROSERVICE at_ asy).1,
           (ms_has_routes n pth ProjectType.MICROSERVICE at_ asy).2,
           (ms_no_ml_routes n pth ProjectType.MICROSERVICE at_ asy hn1 hn2).1,
           (ms_no_ml_routes n pth ProjectType.MICROSERVICE at_ asy hn1 hn2).2⟩
  · intro hA hB
    cases pt with
    | GENERIC => rfl
    | OUT_OF_DOMAIN => rfl
    | ML_API => exact absurd rfl hA
    | MICROSERVICE => exact absurd rfl hB

/-- Witness for C5 (amended) at a concrete ML configuration. -/
theorem project_dispatch_witness :
    containsTok (GenerationConfig.mk "demo" "out" ProjectType.ML_API AuthType.NONE false).name
        "@router.post(\"/predict\")" = false
    ∧ containsTok (GenerationConfig.mk "demo" "out" ProjectType.ML_API AuthType.NONE false).name
        "@router.get(\"/model/info\")" = false
    ∧ ((GenerationConfig.mk "demo" "out" ProjectType.ML_API AuthType.NONE false).project_type
          = ProjectType.ML_API →
        containsTok
          (APIGenerator.project_specific_endpoints
            (GenerationConfig.mk "demo" "out" ProjectType.ML_API AuthType.NONE false))
          "@router.post(\"/predict\")" = true
        ∧ containsTok
            (APIGenerator.project_specific_endpoints
              (GenerationConfig.mk "demo" "out" ProjectType.ML_API AuthType.NONE false))
            "@router.get(\"/model/info\")" = true
        ∧ containsTok
            (APIGenerator.project_specific_endpoints
              (GenerationConfig.mk "demo" "out" ProjectType.ML_API AuthType.NONE false))
            "@router.get(\"/status\")" = false
        ∧ containsTok
            (APIGenerator.project_specific_endpoints
              (GenerationConfig.mk "demo" "out" ProjectType.ML_API AuthType.NONE false))
            "@router.post(\"/process\")" = false) :=
  ⟨by decide, by decide, (project_dispatch _ (by decide) (by decide)).1⟩

/-- C9: even with `auth_type = NONE`, the endpoints file still references
auth artifacts: the import `from app.models.auth import User` is always
emitted, and for `ML_API`/`MICROSERVICE` the literal
`Depends(get_current_user) if False else None` appears — while the
`auth_imports` fragment (the `from app.core.security import get_current_user`
line) is the empty string, i.e. the security import line is omitted. -/
theorem none_auth_residual_tokens (config : GenerationConfig)
    (h : config.auth_type = AuthType.NONE) :
    containsTok (APIGenerator.get_endpoints_template config)
        "from app.models.auth import User" = true
    ∧ (config.project_type = ProjectType.ML_API
        ∨ config.project_type = ProjectType.MICROSERVICE →
        containsTok (APIGenerator.get_endpoints_template config)
          "Depends(get_current_user) if False else None" = true)
    ∧ APIGenerator.auth_imports config = "" := by
  obtain ⟨n, pth, pt, at_, asy⟩ := config
  cases at_ with
  | NONE =>
    refine ⟨?_, ?_, rfl⟩
    · simp only [containsTok]
      rw [endpoints_data]
      exact ep_user_import _ asy pt n
    · intro hdisj
      simp only [containsTok]
      rw [endpoints_data]
      cases pt with
      | GENERIC => rcases hdisj with hpt | hpt <;> simp at hpt
      | OUT_OF_DOMAIN => rcases hdisj with hpt | hpt <;> simp at hpt
      | ML_API =>
        exact occurs_render_true
          (List.mem_cons_of_mem _ (List.mem_cons_of_mem _ (List.mem_cons_of_mem _
            (List.mem_cons_of_mem _ (List.mem_cons_self _ _))))) (by decide)
      | MICROSERVICE =>
        exact occurs_render_true
          (List.mem_cons_of_mem _ (List.mem_cons_of_mem _ (List.mem_cons_of_mem _
            (List.mem_cons_of_mem _ (List.mem_cons_of_mem _ (List.mem_cons_of_mem _
              (List.mem_cons_self _ _))))))) (by decide)
  | JWT => simp at h
  | OAUTH => simp at h
  | OUT_OF_DOMAIN => simp at h

/-- Witness for C9 at a concrete configuration. -/
theorem none_auth_residual_tokens_witness :
    (GenerationConfig.mk "demo" "out" ProjectType.ML_API AuthType.NONE false).auth_type
        = AuthType.NONE
    ∧ containsTok
        (APIGenerator.get_endpoints_template
          (GenerationConfig.mk "demo" "out" ProjectType.ML_API AuthType.NONE false))
        "from app.models.auth import User" = true :=
  ⟨rfl, (none_auth_residual_tokens _ rfl).1⟩
